import Mathlib

/-!
Verification of the PDF-to-EPUB conversion pipeline.

The development shallowly embeds the pipeline's core logic:
* the session-load decision of the `App` component (resume offer vs. discard),
* page-range chunking (`CHUNK_SIZE`, `numChunks`, per-chunk page bounds),
* the conversion loop's session-snapshot / chunk-submission event trace,
* `sendMessageWithRetry`'s classification, backoff and attempt accounting,
* `finishEpubConversionChat`'s structured-response validation,
* `generateEpub`'s archive assembly (image rewriting, manifest, navigation),
* the raster image normalization to 4-channel RGBA.

External collaborators (pdf.js extraction, the Gemini chat endpoint,
`JSON.parse`/`DOMParser`/`XMLSerializer`, `localStorage`, JSZip's byte-level
output) are modelled at their interfaces: their results appear as explicit
inputs or as abstract payloads, while every branch, guard, counter and string
the repository's own code computes is embedded directly.
-/

namespace PdfToEpub

/-! ## JavaScript value model

Persisted session records travel through `JSON.parse`, and the final chat
response is a parsed JSON object, so we model JSON values and JavaScript
truthiness explicitly. -/

/-- A parsed JSON value (numbers restricted to integers, which is all the
pipeline ever stores). -/
inductive Json where
  | null
  | bool (b : Bool)
  | num (n : Int)
  | str (s : String)
  | arr (elems : List Json)
  | obj (fields : List (String × Json))

/-- JavaScript truthiness of an optional value: `none` models `undefined`
(e.g. a missing object property); `null`, `false`, `0` and `""` are falsy;
arrays and objects are always truthy. -/
def jsTruthy : Option Json → Bool
  | none => false
  | some Json.null => false
  | some (Json.bool b) => b
  | some (Json.num n) => n != 0
  | some (Json.str s) => s != ""
  | some (Json.arr _) => true
  | some (Json.obj _) => true

/-- JavaScript property access `value.key` on a parsed JSON value: objects
yield the last binding for the key (`JSON.parse` keeps the last duplicate),
everything else yields `undefined` (`none`). -/
def getField (j : Json) (key : String) : Option Json :=
  match j with
  | Json.obj fields => (fields.reverse.find? (fun f => f.1 == key)).map (·.2)
  | _ => none

/-! ## Session-load decision (App.tsx, session-load effect, lines 46-69)

When a file is selected the effect reads `localStorage` under the
document-identity key.  `savedSession = none` models an absent record;
`some none` models a record whose `JSON.parse` throws; `some (some parsed)`
models a record parsing to `parsed`.  The effect offers the session for
resume only when `parsed.currentChunk && parsed.chatHistory` is truthy;
otherwise (including a parse failure) it removes the record and offers
nothing. -/

/-- Outcome of the session-load effect. -/
inductive SessionLoadOutcome where
  | offered (session : Json)
  | discarded
  | absent

/-- The session-load effect of `App`: parse-and-validate a persisted record.
A record failing the truthiness check `parsed.currentChunk &&
parsed.chatHistory` is removed from the store (`discarded`). -/
def sessionLoadEffect (savedSession : Option (Option Json)) : SessionLoadOutcome :=
  match savedSession with
  | none => SessionLoadOutcome.absent
  | some none => SessionLoadOutcome.discarded
  | some (some parsed) =>
    if jsTruthy (getField parsed "currentChunk") && jsTruthy (getField parsed "chatHistory") then
      SessionLoadOutcome.offered parsed
    else
      SessionLoadOutcome.discarded

/-- The exact record shape `handleConvert` persists immediately before
submitting chunk 0 (App.tsx lines 240-246) on a 10-page document with no
images extracted yet and a fresh chat history. -/
def chunkZeroSession : Json :=
  Json.obj [("currentChunk", Json.num 0), ("numPages", Json.num 10),
            ("chatHistory", Json.arr []), ("allImages", Json.arr [])]

/-! ## Chunking (App.tsx, handleConvert, lines 154-161) -/

/-- Pages per chunk (App.tsx line 12). -/
def CHUNK_SIZE : Nat := 5

/-- Inter-chunk throttle in milliseconds (App.tsx line 13). -/
def THROTTLE_MS : Nat := 1500

/-- Chunk count `Math.ceil(numPages / CHUNK_SIZE)` over naturals. -/
def numChunks (numPages : Nat) : Nat := (numPages + CHUNK_SIZE - 1) / CHUNK_SIZE

/-- First page of chunk `i`: `i * CHUNK_SIZE + 1`. -/
def startPage (i : Nat) : Nat := i * CHUNK_SIZE + 1

/-- Last page of chunk `i`: `Math.min((i + 1) * CHUNK_SIZE, numPages)`. -/
def endPage (i numPages : Nat) : Nat := min ((i + 1) * CHUNK_SIZE) numPages

/-! ## Conversion-loop event trace (App.tsx, handleConvert, lines 138-261)

The durability-relevant effects of `handleConvert` are modelled as an event
trace.  Page extraction and progress updates touch no durable state and are
omitted; the `localStorage.setItem` snapshot writes, the chat creation, the
chunk submissions and the throttle sleeps appear in program order.  A
snapshot's `numPages`/`chatHistory`/`allImages` payload is tracked only
through its `currentChunk` field, the field the resume protocol depends on. -/

/-- An extracted image `{ mimeType, data }` as accumulated in `allImages`. -/
structure ExtractedImage where
  mimeType : String
  data : String
  deriving DecidableEq, Repr

/-- A persisted session record as `handleConvert` reads it when resuming
(`resumableSession`): `currentChunk` is the chunk to resume from,
`chatHistory` the serialized conversation turns (opaque strings), and
`allImages` the accumulated image sequence (`undefined` modelled as
`none`, mirroring `resumableSession.allImages || []`). -/
structure SessionRec where
  currentChunk : Nat
  numPages : Nat
  chatHistory : List String
  allImages : Option (List ExtractedImage)
  deriving DecidableEq, Repr

/-- Durability-relevant events of `handleConvert`, in program order. -/
inductive Event where
  | removeSession
  | startChat (history : List String)
  | saveSession (currentChunk : Nat)
  | sendChunk (i startPageArg endPageArg : Nat)
  | throttle (ms : Nat)
  deriving DecidableEq, Repr

/-- One iteration of the chunk loop for chunk `i` (App.tsx lines 159-260):
snapshot with `currentChunk = i` before the API call, the submission, the
snapshot with `currentChunk = i + 1` after success, then the throttle
sleep. -/
def chunkIter (numPages i : Nat) : List Event :=
  [Event.saveSession i,
   Event.sendChunk i (startPage i) (endPage i numPages),
   Event.saveSession (i + 1),
   Event.throttle THROTTLE_MS]

/-- The chunk loop `for (let i = resumeFromChunk; i < numChunks; i++)`. -/
def convertLoop (numPages i : Nat) : List Event :=
  if _h : i < numChunks numPages then
    chunkIter numPages i ++ convertLoop numPages (i + 1)
  else []
termination_by numChunks numPages - i

/-- The resume seeding plus chunk loop of `handleConvert` (lines 138-261):
resuming replays the persisted history into a fresh chat and starts at
`session.currentChunk`; otherwise the stale session is removed and a fresh
chat starts at chunk 0. -/
def convertRun (shouldResume : Bool) (resumableSession : Option SessionRec)
    (numPages : Nat) : List Event :=
  match shouldResume, resumableSession with
  | true, some session =>
      Event.startChat session.chatHistory :: convertLoop numPages session.currentChunk
  | _, _ =>
      Event.removeSession :: Event.startChat [] :: convertLoop numPages 0

/-- The pre-seeded accumulated image sequence (`allImages`, lines 140-146):
`session.allImages || []` when resuming, `[]` otherwise. -/
def initialAllImages (shouldResume : Bool) (resumableSession : Option SessionRec) :
    List ExtractedImage :=
  match shouldResume, resumableSession with
  | true, some session => session.allImages.getD []
  | _, _ => []

/-- Chunk indices submitted to the conversation client in a trace. -/
def sendIndices (trace : List Event) : List Nat :=
  trace.filterMap (fun e =>
    match e with
    | Event.sendChunk i _ _ => some i
    | _ => none)

/-! ## Retrying send (geminiService.ts, sendMessageWithRetry, lines 41-84)

`chat.sendMessage` is external: attempt `k`'s result is supplied by an
oracle `outcome k` (`Except.error` models a thrown value, already
stringified; line 53's lowercasing is `toLowerStr`).  The jitter
`Math.floor(Math.random() * 1000)` drawn after attempt `k` is supplied by
`jitter k`.  The function returns the final result together with the number
of attempts made and the list of backoff delays slept, which are the
observables the retry policy is specified by.  The `for` loop's remaining
iteration budget `MAX_RETRIES - attempt` is carried as structural fuel. -/

/-- Maximum total attempts (geminiService.ts line 45). -/
def MAX_RETRIES : Nat := 7

/-- Initial backoff delay in milliseconds (geminiService.ts line 46). -/
def INITIAL_DELAY_MS : Nat := 3000

/-- JavaScript `String.prototype.toLowerCase`, applied per code point. -/
def toLowerStr (s : String) : String := String.mk (s.toList.map Char.toLower)

/-- Substring test, `String.prototype.includes`. -/
def containsSub : List Char → List Char → Bool
  | [], needle => needle.isEmpty
  | c :: rest, needle => needle.isPrefixOf (c :: rest) || containsSub rest needle

/-- JavaScript `hay.includes(needle)`. -/
def includesStr (hay needle : String) : Bool := containsSub hay.toList needle.toList

/-- Non-retriable daily-quota classification (geminiService.ts line 56),
applied to the lowercased stringified error. -/
def isQuotaErrorStr (errorString : String) : Bool :=
  includesStr errorString "daily limit" || includesStr errorString "quota exceeded"

/-- Retriable-error classification (geminiService.ts lines 62-68). -/
def isRetriableErrorStr (errorString : String) : Bool :=
  includesStr errorString "429" ||
  includesStr errorString "resource_exhausted" ||
  includesStr errorString "500" ||
  includesStr errorString "503" ||
  includesStr errorString "unknown" ||
  includesStr errorString "rpc failed"

/-- The retry loop body of `sendMessageWithRetry` (lines 49-83).  `fuel` is
`MAX_RETRIES - attempt`, so `fuel = 0` is the loop exit reaching the
unreachable fallback throw at line 83.  Returns
`(result, attemptsMade, delaysSlept)`. -/
def retryLoop {α : Type} (outcome : Nat → Except String α) (jitter : Nat → Nat) :
    Nat → Nat → Nat → List Nat → Except String α × Nat × List Nat
  | 0, attempt, _, delays =>
      (Except.error "Exceeded maximum retries for sending message.", attempt, delays.reverse)
  | fuel + 1, attempt, delay, delays =>
      match outcome attempt with
      | Except.ok v => (Except.ok v, attempt + 1, delays.reverse)
      | Except.error err =>
          let errorString := toLowerStr err
          if isQuotaErrorStr errorString then
            (Except.error err, attempt + 1, delays.reverse)
          else if isRetriableErrorStr errorString && attempt < MAX_RETRIES - 1 then
            retryLoop outcome jitter fuel (attempt + 1)
              (delay * 2 + jitter attempt) (delay :: delays)
          else
            (Except.error err, attempt + 1, delays.reverse)

/-- `sendMessageWithRetry`: run the retry loop from attempt 0 with the
initial 3000 ms delay. -/
def sendMessageWithRetry {α : Type} (outcome : Nat → Except String α)
    (jitter : Nat → Nat) : Except String α × Nat × List Nat :=
  retryLoop outcome jitter MAX_RETRIES 0 INITIAL_DELAY_MS []

/-! ## Finalize call (geminiService.ts, finishEpubConversionChat, lines 124-154)

The final send requests a structured JSON response; the external transport
plus `JSON.parse` of `response.text` are modelled by an oracle yielding the
parsed `Json` value.  After a response is received the code validates
`result && result.htmlContent` and throws
`API response did not contain 'htmlContent'.` when the check fails; the
surrounding `catch` wraps any thrown message as
`Failed to convert PDF to HTML. <message>`.  The attempt count returned
alongside the result counts every `chat.sendMessage` invocation, so an
unchanged count after validation means no further service attempts. -/

/-- Error message for a response failing the `result && result.htmlContent`
validation, after wrapping by the outer catch (lines 147, 152). -/
def missingHtmlContentError : String :=
  "Failed to convert PDF to HTML. API response did not contain 'htmlContent'."

/-- `finishEpubConversionChat`: one retried send, then validation of the
structured response.  Returns the result together with the total number of
service attempts made. -/
def finishEpubConversionChat (outcome : Nat → Except String Json)
    (jitter : Nat → Nat) : Except String Json × Nat :=
  match sendMessageWithRetry outcome jitter with
  | (Except.ok result, attempts, _) =>
      if jsTruthy (some result) && jsTruthy (getField result "htmlContent") then
        match getField result "htmlContent" with
        | some v => (Except.ok v, attempts)
        | none => (Except.error missingHtmlContentError, attempts)
      else
        (Except.error missingHtmlContentError, attempts)
  | (Except.error err, attempts, _) =>
      (Except.error ("Failed to convert PDF to HTML. " ++ err), attempts)

/-! ## Archive packaging (epubService.ts, generateEpub, lines 70-158)

`DOMParser` is external, so the parsed markup is modelled by the three
collections `generateEpub` queries from it: the `<title>` text, the `img`
elements in document order, and the `nav ol li a` anchors in document
order.  JSZip is modelled as the ordered list of `file(...)` calls: each
entry records its path, payload and per-file compression option, in call
order (which is the archive entry order).  `XMLSerializer` output for
`content.xhtml` is abstracted as the rewritten document itself. -/

/-- An `img` element, identified by its `src` attribute (`none` when the
attribute is absent). -/
structure ImgEl where
  src : Option String
  deriving DecidableEq, Repr

/-- A TOC anchor `nav ol li a`: its `textContent` and `href` attribute. -/
structure TocLink where
  textContent : Option String
  href : Option String
  deriving DecidableEq, Repr

/-- The parsed markup, as queried by `generateEpub`.  `styleHref` records
the stylesheet `<link>` injected into `<head>` (lines 115-122), `none`
before injection. -/
structure HtmlDoc where
  titleText : Option String
  imgs : List ImgEl
  tocLinks : List TocLink
  styleHref : Option String
  deriving DecidableEq, Repr

/-- Payload of an archive entry: a text file, a base64-decoded binary file,
or the serialized (rewritten) content document. -/
inductive EntryData where
  | text (s : String)
  | b64 (s : String)
  | serialized (d : HtmlDoc)
  deriving DecidableEq, Repr

/-- One JSZip `file(...)` call: full path, payload, and the per-file
compression option (`some "STORE"` only for the mimetype entry). -/
structure ZipEntry where
  path : String
  data : EntryData
  compression : Option String
  deriving DecidableEq, Repr

/-- META-INF/container.xml (epubService.ts lines 2-7). -/
def createContainerXml : String :=
  "<?xml version=\"1.0\" encoding=\"UTF-8\"?>\n<container version=\"1.0\" xmlns=\"urn:oasis:names:tc:opendocument:xmlns:container\">\n  <rootfiles>\n    <rootfile full-path=\"OEBPS/content.opf\" media-type=\"application/oebps-package+xml\"/>\n  </rootfiles>\n</container>"

/-- OEBPS/content.opf (epubService.ts lines 10-25). -/
def createContentOpf (title fileManifest : String) : String :=
  "<?xml version=\"1.0\" encoding=\"UTF-8\"?>\n<package xmlns=\"http://www.idpf.org/2007/opf\" unique-identifier=\"pub-id\" version=\"2.0\">\n  <metadata xmlns:dc=\"http://purl.org/dc/elements/1.1/\" xmlns:opf=\"http://www.idpf.org/2007/opf\">\n    <dc:title>"
  ++ title ++
  "</dc:title>\n    <dc:language>en</dc:language>\n  </metadata>\n  <manifest>\n    <item id=\"content\" href=\"content.xhtml\" media-type=\"application/xhtml+xml\"/>\n    <item id=\"ncx\" href=\"toc.ncx\" media-type=\"application/x-dtbncx+xml\"/>\n    <item id=\"css\" href=\"style.css\" media-type=\"text/css\"/>\n    "
  ++ fileManifest ++
  "\n  </manifest>\n  <spine toc=\"ncx\">\n    <itemref idref=\"content\"/>\n  </spine>\n</package>"

/-- OEBPS/toc.ncx (epubService.ts lines 28-43). -/
def createTocNcx (title navPoints : String) : String :=
  "<?xml version=\"1.0\" encoding=\"UTF-8\"?>\n<!DOCTYPE ncx PUBLIC \"-//NISO//DTD ncx 2005-1//EN\" \"http://www.daisy.org/z3986/2005/ncx-2005-1.dtd\">\n<ncx xmlns=\"http://www.daisy.org/z3986/2005/ncx/\" version=\"2005-1\">\n  <head>\n    <meta name=\"dtb:uid\" content=\"\"/>\n    <meta name=\"dtb:depth\" content=\"1\"/>\n    <meta name=\"dtb:totalPageCount\" content=\"0\"/>\n    <meta name=\"dtb:maxPageNumber\" content=\"0\"/>\n  </head>\n  <docTitle>\n    <text>"
  ++ title ++
  "</text>\n  </docTitle>\n  <navMap>\n    "
  ++ navPoints ++
  "\n  </navMap>\n</ncx>"

/-- OEBPS/style.css (epubService.ts lines 46-67). -/
def createCss : String :=
  "body \x7b\n  font-family: serif;\n  line-height: 1.6;\n  padding: 1em;\n\x7d\nh1, h2, h3, h4, h5, h6 \x7b\n  margin-top: 1.5em;\n  margin-bottom: 0.5em;\n  line-height: 1.2;\n\x7d\nimg \x7b\n  max-width: 100%;\n  display: block;\n  margin: 1em auto;\n\x7d\nnav ol \x7b\n  list-style-type: none;\n  padding-left: 0;\n\x7d\nnav li \x7b\n  margin-bottom: 0.5em;\n\x7d"

/-- JavaScript `s.startsWith(p)`, over the code points. -/
def startsWithStr (s p : String) : Bool := p.toList.isPrefixOf s.toList

/-- Accumulating worker for `splitOnChar`. -/
def splitOnCharAux (sep : Char) : List Char → List Char → List String
  | [], acc => [String.mk acc.reverse]
  | c :: rest, acc =>
      if c = sep then String.mk acc.reverse :: splitOnCharAux sep rest []
      else splitOnCharAux sep rest (c :: acc)

/-- JavaScript `s.split(sep)` for a single-character separator (the only
form the packager uses: `','` and `'/'`). -/
def splitOnChar (s : String) (sep : Char) : List String :=
  splitOnCharAux sep s.toList []

/-- JavaScript `array.join(sep)`. -/
def joinSep (sep : String) : List String → String
  | [] => ""
  | [s] => s
  | s :: rest => s ++ sep ++ joinSep sep rest

/-- Minimal run of `.*?` up to the next `;`, as in the regex `:(.*?);`:
the characters before the first `;`, or failure when no `;` follows. -/
def takeUntilSemi : List Char → Option (List Char)
  | [] => none
  | c :: rest => if c = ';' then some [] else (takeUntilSemi rest).map (fun mid => c :: mid)

/-- Leftmost match of the regex `:(.*?);`: at the first `:` followed
(eventually) by a `;`, capture the characters strictly between that `:`
and the first following `;`. -/
def matchColonSemiAux : List Char → Option (List Char)
  | [] => none
  | c :: rest =>
    if c = ':' then
      match takeUntilSemi rest with
      | some mid => some mid
      | none => matchColonSemiAux rest
    else matchColonSemiAux rest

/-- `header.match(/:(.*?);/)`, returning the captured group. -/
def matchColonSemi (header : String) : Option String :=
  (matchColonSemiAux header.toList).map (fun cs => String.mk cs)

/-- JavaScript `value || fallback` for an optional string (`undefined` and
`""` are falsy). -/
def jsStrOr (value : Option String) (fallback : String) : String :=
  match value with
  | some s => if s = "" then fallback else s
  | none => fallback

/-- The guards of the image-rewriting loop (epubService.ts lines 95-99):
`src && src.startsWith('data:')`, then `const [header, base64Data] =
src.split(',')`, `header.match(/:(.*?);/)`, and the truthiness of
`mimeMatch && base64Data`.  Returns the mime type and base64 payload of a
well-formed inline data URI, `none` otherwise. -/
def dataUriParts : Option String → Option (String × String)
  | none => none
  | some src =>
    if startsWithStr src "data:" then
      let parts := splitOnChar src ','
      let header := parts.headD ""
      match matchColonSemi header, parts.get? 1 with
      | some mimeType, some base64Data =>
          if base64Data = "" then none else some (mimeType, base64Data)
      | _, _ => none
    else none

/-- The image-rewriting loop (epubService.ts lines 94-110), threading the
`imageCounter`.  Returns the rewritten `img` elements, the image archive
entries, the manifest `<item>` strings, and the final counter. -/
def processImages : List ImgEl → Nat → List ImgEl × List ZipEntry × List String × Nat
  | [], imageCounter => ([], [], [], imageCounter)
  | img :: rest, imageCounter =>
    match dataUriParts img.src with
    | some (mimeType, base64Data) =>
        let extension := jsStrOr ((splitOnChar mimeType '/').get? 1) "jpeg"
        let filename := "image" ++ toString imageCounter ++ "." ++ extension
        let entry : ZipEntry :=
          { path := "OEBPS/images/" ++ filename, data := EntryData.b64 base64Data,
            compression := none }
        let manifestItem :=
          "<item id=\"img" ++ toString imageCounter ++ "\" href=\"images/" ++ filename
            ++ "\" media-type=\"" ++ mimeType ++ "\"/>"
        let result := processImages rest (imageCounter + 1)
        ({ src := some ("images/" ++ filename) } :: result.1,
         entry :: result.2.1, manifestItem :: result.2.2.1, result.2.2.2)
    | none =>
        let result := processImages rest imageCounter
        (img :: result.1, result.2.1, result.2.2.1, result.2.2.2)

/-- One `navPoint` entry (epubService.ts lines 130-133), from the 0-based
list position and the anchor (`textContent || ''`, `href || ''`). -/
def navPointXml (index : Nat) (link : TocLink) : String :=
  "<navPoint id=\"navpoint-" ++ toString (index + 1) ++ "\" playOrder=\""
  ++ toString (index + 1) ++ "\">\n      <navLabel><text>"
  ++ link.textContent.getD "" ++ "</text></navLabel>\n      <content src=\"content.xhtml"
  ++ link.href.getD "" ++ "\"/>\n    </navPoint>"

/-- Result of `generateEpub`: the archive entries in `file(...)` call order
plus the code's own intermediate collections (`imageManifestItems`,
`navPoints`) and the rewritten document. -/
structure EpubResult where
  entries : List ZipEntry
  imageManifestItems : List String
  navPoints : List String
  rewrittenDoc : HtmlDoc
  bookTitle : String
  deriving DecidableEq, Repr

/-- `generateEpub` (epubService.ts lines 70-158): title fallback, mimetype
entry (explicitly stored, first `file` call), container descriptor, image
rewriting, stylesheet creation and injection, navigation map, serialized
content document, and package manifest — in source order. -/
def generateEpub (doc : HtmlDoc) (title : String) : EpubResult :=
  let bookTitle := jsStrOr doc.titleText title
  let mimetypeEntry : ZipEntry :=
    { path := "mimetype", data := EntryData.text "application/epub+zip",
      compression := some "STORE" }
  let containerEntry : ZipEntry :=
    { path := "META-INF/container.xml", data := EntryData.text createContainerXml,
      compression := none }
  let processed := processImages doc.imgs 0
  let rewrittenImgs := processed.1
  let imageEntries := processed.2.1
  let imageManifestItems := processed.2.2.1
  let cssEntry : ZipEntry :=
    { path := "OEBPS/style.css", data := EntryData.text createCss, compression := none }
  let rewrittenDoc : HtmlDoc :=
    { doc with imgs := rewrittenImgs, styleHref := some "style.css" }
  let navPoints := List.mapIdx navPointXml doc.tocLinks
  let tocEntry : ZipEntry :=
    { path := "OEBPS/toc.ncx",
      data := EntryData.text (createTocNcx bookTitle (joinSep "\n" navPoints)),
      compression := none }
  let contentEntry : ZipEntry :=
    { path := "OEBPS/content.xhtml", data := EntryData.serialized rewrittenDoc,
      compression := none }
  let opfEntry : ZipEntry :=
    { path := "OEBPS/content.opf",
      data := EntryData.text
        (createContentOpf bookTitle (joinSep "\n" imageManifestItems)),
      compression := none }
  { entries := mimetypeEntry :: containerEntry ::
      (imageEntries ++ [cssEntry, tocEntry, contentEntry, opfEntry]),
    imageManifestItems := imageManifestItems,
    navPoints := navPoints,
    rewrittenDoc := rewrittenDoc,
    bookTitle := bookTitle }

/-! ## Pixel normalization (App.tsx, handleConvert, lines 192-217)

The canvas `ImageData` buffer is a `Uint8ClampedArray` of fixed size
`width * height * 4`, initialized to zero; JavaScript typed-array writes to
out-of-range indices are silently ignored and stored values are clamped to
0-255.  Both behaviors are modelled, so every branch — including the
grayscale fallback on buffers of unexpected length — is total. -/

/-- Clamping of a stored value, as `Uint8ClampedArray` does. -/
def clamp255 (v : Nat) : Nat := min v 255

/-- A typed-array write: clamp the value, ignore out-of-range indices. -/
def tset (a : Array Nat) (i v : Nat) : Array Nat := a.setD i (clamp255 v)

/-- The RGB branch loop (lines 199-205): `for (l = 0; l < data.length;
l += 3)` writing R, G, B, 255 at `k, k+1, k+2, k+3` with `k += 4`. -/
def rgbFill (data : List Nat) (l k : Nat) (out : Array Nat) : Array Nat :=
  if _h : l < data.length then
    rgbFill data (l + 3) (k + 4)
      (tset (tset (tset (tset out k (data.getD l 0)) (k + 1) (data.getD (l + 1) 0))
        (k + 2) (data.getD (l + 2) 0)) (k + 3) 255)
  else out
termination_by data.length - l

/-- `imageData.data.set(img.data)` (line 207): copy the source into the
target from offset 0. -/
def typedArraySet : Array Nat → Nat → List Nat → Array Nat
  | out, _, [] => out
  | out, k, v :: rest => typedArraySet (tset out k v) (k + 1) rest

/-- The grayscale fallback loop (lines 209-215): each input byte becomes an
opaque gray RGBA pixel. -/
def grayFill (data : List Nat) (l k : Nat) (out : Array Nat) : Array Nat :=
  if _h : l < data.length then
    grayFill data (l + 1) (k + 4)
      (tset (tset (tset (tset out k (data.getD l 0)) (k + 1) (data.getD l 0))
        (k + 2) (data.getD l 0)) (k + 3) 255)
  else out
termination_by data.length - l

/-- The normalization of an extracted pixel buffer into the RGBA
`ImageData` buffer (lines 197-216): RGB branch, RGBA copy branch, or
grayscale fallback on any other length. -/
def normalizePixels (width height : Nat) (data : List Nat) : Array Nat :=
  let imageData := Array.mkArray (width * height * 4) 0
  if data.length = width * height * 3 then
    rgbFill data 0 0 imageData
  else if data.length = width * height * 4 then
    typedArraySet imageData 0 data
  else
    grayFill data 0 0 imageData

/-! ## Concrete instances and spec-side definitions -/

/-- The specified backoff delay sequence: 3000 ms initially, then
`previous * 2 + jitter` after each retriable failure, where `jitter k` is
the `Math.floor(Math.random() * 1000)` value drawn after attempt `k`. -/
def backoffDelay (jitter : Nat → Nat) : Nat → Nat
  | 0 => INITIAL_DELAY_MS
  | k + 1 => backoffDelay jitter k * 2 + jitter k

/-- A parsed markup document with exactly 2 inline `data:image/png;base64`
images and a table of contents with 3 anchor entries. -/
def sampleDoc : HtmlDoc :=
  { titleText := some "Sample Book",
    imgs := [{ src := some "data:image/png;base64,AAAA" },
             { src := some "data:image/png;base64,BBBB" }],
    tocLinks := [{ textContent := some "Chapter 1", href := some "#chapter-1" },
                 { textContent := some "Chapter 2", href := some "#chapter-2" },
                 { textContent := some "Chapter 3", href := some "#chapter-3" }],
    styleHref := none }

/-! ## Claims -/

/-- Claim C1 (code bug): the session-load effect must offer a well-formed
record with `currentChunk = 0` for resume, but the truthiness check
`parsed.currentChunk && parsed.chatHistory` treats the present value `0` as
missing, so the very record `handleConvert` persists before submitting
chunk 0 is discarded and removed from the store instead of being offered. -/
theorem claim_C1_chunk_zero_session_discarded :
    sessionLoadEffect (some (some chunkZeroSession)) = SessionLoadOutcome.discarded ∧
    getField chunkZeroSession "currentChunk" = some (Json.num 0) ∧
    (getField chunkZeroSession "chatHistory").isSome = true := by
  exact ⟨rfl, rfl, rfl⟩

/-- Claim C2: for every page count `P ≥ 1` with `CHUNK_SIZE = 5`, the chunk
count is `ceil(P / 5)` (characterized by its bounds), every chunk's page
range `[startPage i, endPage i]` is non-empty and lies within `[1, P]`,
consecutive ranges are contiguous, every page of `[1, P]` lies in some
chunk's range, and distinct chunks' ranges never share a page. -/
theorem claim_C2_chunk_ranges_partition (P : Nat) (hP : 1 ≤ P) :
    (P ≤ numChunks P * CHUNK_SIZE ∧ (numChunks P - 1) * CHUNK_SIZE < P) ∧
    (∀ i, i < numChunks P →
      1 ≤ startPage i ∧ startPage i ≤ endPage i P ∧ endPage i P ≤ P) ∧
    (∀ i, i + 1 < numChunks P → startPage (i + 1) = endPage i P + 1) ∧
    (∀ p, (1 ≤ p ∧ p ≤ P) ↔ ∃ i, i < numChunks P ∧ startPage i ≤ p ∧ p ≤ endPage i P) ∧
    (∀ i j, i < numChunks P → j < numChunks P →
      (∃ p, startPage i ≤ p ∧ p ≤ endPage i P ∧ startPage j ≤ p ∧ p ≤ endPage j P) →
      i = j) := by
  simp only [numChunks, startPage, endPage, CHUNK_SIZE]
  refine ⟨by omega, fun i hi => by omega, fun i hi => by omega, fun p => ?_, ?_⟩
  · constructor
    · intro hp
      exact ⟨(p - 1) / 5, by omega⟩
    · rintro ⟨i, hi, h1, h2⟩
      omega
  · rintro i j hi hj ⟨p, h1, h2, h3, h4⟩
    omega

/-- Witness for claim C2 at `P = 7`: page 6 belongs to some chunk. -/
theorem claim_C2_chunk_ranges_partition_witness :
    ∃ i, i < numChunks 7 ∧ startPage i ≤ 6 ∧ 6 ≤ endPage i 7 :=
  ((claim_C2_chunk_ranges_partition 7 (by decide)).2.2.2.1 6).mp (by decide)

/-- Claim C5: a quota-classified error (text containing `daily limit` or
`quota exceeded`) ends the retrying send at exactly the attempt that raised
it, whatever the remaining budget `fuel`: no backoff delay is slept (the
delay log is unchanged) and that same error is propagated. -/
theorem claim_C5_quota_error_single_attempt {α : Type}
    (outcome : Nat → Except String α) (jitter : Nat → Nat) (e : String)
    (fuel attempt delay : Nat) (delays : List Nat)
    (hatt : outcome attempt = Except.error e)
    (hq : isQuotaErrorStr (toLowerStr e) = true) :
    retryLoop outcome jitter (fuel + 1) attempt delay delays =
      (Except.error e, attempt + 1, delays.reverse) := by
  simp [retryLoop, hatt, hq]

/-- Witness for claim C5: a concrete quota error on the first attempt makes
the full-budget run propagate it after exactly one attempt with no delay. -/
theorem claim_C5_quota_error_single_attempt_witness :
    retryLoop (fun _ => (Except.error "Error: Quota exceeded for today" : Except String Unit))
      (fun _ => 0) MAX_RETRIES 0 INITIAL_DELAY_MS [] =
      (Except.error "Error: Quota exceeded for today", 1, []) :=
  claim_C5_quota_error_single_attempt _ _ _ 6 0 INITIAL_DELAY_MS [] rfl (by decide)

/-- Claim C6: when the retried final send succeeds but the parsed response
lacks the `htmlContent` field, `finishEpubConversionChat` returns the
malformed-response error (it never returns markup), and the total number of
service attempts is exactly the number made up to receiving that response —
the malformed response triggers no further attempts. -/
theorem claim_C6_malformed_response_fatal (outcome : Nat → Except String Json)
    (jitter : Nat → Nat) (result : Json) (attempts : Nat) (delays : List Nat)
    (hok : sendMessageWithRetry outcome jitter = (Except.ok result, attempts, delays))
    (hmissing : getField result "htmlContent" = none) :
    finishEpubConversionChat outcome jitter =
      (Except.error missingHtmlContentError, attempts) := by
  unfold finishEpubConversionChat
  rw [hok]
  simp [hmissing, jsTruthy]

/-- Witness for claim C6: a first-attempt response parsing to `{}` yields
the malformed-response error after exactly one attempt. -/
theorem claim_C6_malformed_response_fatal_witness :
    finishEpubConversionChat (fun _ => Except.ok (Json.obj [])) (fun _ => 0) =
      (Except.error missingHtmlContentError, 1) :=
  claim_C6_malformed_response_fatal _ _ (Json.obj []) 1 [] rfl rfl

/-- Unfolding of the chunk loop while chunks remain. -/
theorem convertLoop_step (numPages i : Nat) (h : i < numChunks numPages) :
    convertLoop numPages i = chunkIter numPages i ++ convertLoop numPages (i + 1) := by
  rw [convertLoop]
  simp [h]

/-- Unfolding of the chunk loop once no chunks remain. -/
theorem convertLoop_stop (numPages i : Nat) (h : ¬ i < numChunks numPages) :
    convertLoop numPages i = [] := by
  rw [convertLoop]
  simp [h]

/-- The chunk loop started at `r` reaches every chunk `i` with
`r ≤ i < numChunks` with its iteration intact. -/
theorem convertLoop_decompose (numPages i : Nat) (h2 : i < numChunks numPages) :
    ∀ n r, r + n = i →
      convertLoop numPages r =
        (List.range' r n).flatMap (chunkIter numPages) ++
          (chunkIter numPages i ++ convertLoop numPages (i + 1)) := by
  intro n
  induction n with
  | zero =>
      intro r hr
      have hri : r = i := by omega
      subst hri
      rw [convertLoop_step numPages r h2]
      simp
  | succ n ih =>
      intro r hr
      have hrlt : r < numChunks numPages := by omega
      rw [convertLoop_step numPages r hrlt, ih (r + 1) (by omega), List.range'_succ]
      simp [List.append_assoc]

/-- Claim C3: for each chunk `i` processed by the loop (started at any
resume point `r ≤ i`), chunk `i`'s iteration persists exactly two session
snapshots — `currentChunk = i` immediately before the submission and
`currentChunk = i + 1` immediately after it, with no other persisted event
between the two writes — and that iteration appears verbatim inside the
full loop trace. -/
theorem claim_C3_snapshot_pairs (numPages r i : Nat) (h1 : r ≤ i)
    (h2 : i < numChunks numPages) :
    chunkIter numPages i =
      [Event.saveSession i,
       Event.sendChunk i (startPage i) (endPage i numPages),
       Event.saveSession (i + 1),
       Event.throttle THROTTLE_MS] ∧
    convertLoop numPages r =
      (List.range' r (i - r)).flatMap (chunkIter numPages) ++
        (chunkIter numPages i ++ convertLoop numPages (i + 1)) :=
  ⟨rfl, convertLoop_decompose numPages i h2 (i - r) r (by omega)⟩

/-- Witness for claim C3 on a 7-page document resumed at chunk 0, looking
at chunk 1. -/
theorem claim_C3_snapshot_pairs_witness :
    chunkIter 7 1 =
      [Event.saveSession 1,
       Event.sendChunk 1 (startPage 1) (endPage 1 7),
       Event.saveSession 2,
       Event.throttle THROTTLE_MS] ∧
    convertLoop 7 0 =
      (List.range' 0 1).flatMap (chunkIter 7) ++
        (chunkIter 7 1 ++ convertLoop 7 2) :=
  claim_C3_snapshot_pairs 7 0 1 (by decide) (by decide)

/-- `sendIndices` distributes over concatenation. -/
theorem sendIndices_append (a b : List Event) :
    sendIndices (a ++ b) = sendIndices a ++ sendIndices b := by
  simp [sendIndices]

/-- The chunk loop started at `r` submits exactly the chunk indices
`r, r+1, ..., numChunks - 1`. -/
theorem sendIndices_convertLoop (numPages : Nat) :
    ∀ n r, numChunks numPages - r = n →
      sendIndices (convertLoop numPages r) = List.range' r n := by
  intro n
  induction n with
  | zero =>
      intro r hr
      rw [convertLoop_stop numPages r (by omega)]
      simp [sendIndices]
  | succ n ih =>
      intro r hr
      rw [convertLoop_step numPages r (by omega), sendIndices_append,
        ih (r + 1) (by omega), List.range'_succ]
      simp [sendIndices, chunkIter]

/-- A submitted chunk index appears in `sendIndices`. -/
theorem mem_sendIndices_of_sendChunk {i sp ep : Nat} {trace : List Event}
    (h : Event.sendChunk i sp ep ∈ trace) : i ∈ sendIndices trace := by
  simp only [sendIndices, List.mem_filterMap]
  exact ⟨Event.sendChunk i sp ep, h, rfl⟩

/-- Claim C9: a resumed run with a session at `currentChunk = n` submits
exactly the chunk indices `n .. numChunks - 1` — no chunk below `n` is ever
re-submitted — and its conversation state and accumulated image sequence
are pre-seeded from the session (the replayed history is the session's
`chatHistory`, the initial `allImages` is the session's sequence). -/
theorem claim_C9_resume_skips_acknowledged (session : SessionRec) (numPages : Nat) :
    sendIndices (convertRun true (some session) numPages) =
      List.range' session.currentChunk (numChunks numPages - session.currentChunk) ∧
    (∀ i sp ep, Event.sendChunk i sp ep ∈ convertRun true (some session) numPages →
      session.currentChunk ≤ i ∧ i < numChunks numPages) ∧
    (convertRun true (some session) numPages).head? =
      some (Event.startChat session.chatHistory) ∧
    initialAllImages true (some session) = session.allImages.getD [] := by
  have hsend : sendIndices (convertRun true (some session) numPages) =
      List.range' session.currentChunk (numChunks numPages - session.currentChunk) := by
    show sendIndices (Event.startChat session.chatHistory ::
      convertLoop numPages session.currentChunk) = _
    rw [show sendIndices (Event.startChat session.chatHistory ::
        convertLoop numPages session.currentChunk) =
        sendIndices (convertLoop numPages session.currentChunk) from by
      simp [sendIndices]]
    exact sendIndices_convertLoop numPages _ _ rfl
  refine ⟨hsend, ?_, rfl, rfl⟩
  intro i sp ep hmem
  have h1 : i ∈ sendIndices (convertRun true (some session) numPages) :=
    mem_sendIndices_of_sendChunk hmem
  rw [hsend] at h1
  have h2 := List.mem_range'_1.mp h1
  omega

/-- Witness for claim C9: resuming at chunk 1 of a 7-page document submits
exactly chunks 1 through `numChunks - 1`. -/
theorem claim_C9_resume_skips_acknowledged_witness :
    sendIndices (convertRun true
        (some { currentChunk := 1, numPages := 7, chatHistory := ["turn0"],
                allImages := some [] }) 7) =
      List.range' 1 (numChunks 7 - 1) :=
  (claim_C9_resume_skips_acknowledged
    { currentChunk := 1, numPages := 7, chatHistory := ["turn0"],
      allImages := some [] } 7).1

/-- Claim C4: when every attempt fails with a retriable-classified (and
non-quota) error, the retrying send makes exactly 7 attempts, sleeps the
backoff delays `3000, 3000*2 + jitter 0, ...` (each subsequent delay is the
previous doubled plus the jitter draw, hence at least twice the previous
and non-decreasing), and then throws the error of the 7th (last) attempt. -/
theorem claim_C4_retriable_exhaustion (outcome : Nat → Except String Unit)
    (jitter : Nat → Nat) (e : Nat → String)
    (hfail : ∀ k, outcome k = Except.error (e k))
    (hquota : ∀ k, isQuotaErrorStr (toLowerStr (e k)) = false)
    (hretri : ∀ k, isRetriableErrorStr (toLowerStr (e k)) = true) :
    sendMessageWithRetry outcome jitter =
      (Except.error (e 6), 7, (List.range 6).map (backoffDelay jitter)) ∧
    backoffDelay jitter 0 = 3000 ∧
    (∀ k, backoffDelay jitter (k + 1) = backoffDelay jitter k * 2 + jitter k) ∧
    (∀ k, 2 * backoffDelay jitter k ≤ backoffDelay jitter (k + 1)) ∧
    (∀ k, backoffDelay jitter k ≤ backoffDelay jitter (k + 1)) := by
  refine ⟨?_, rfl, fun k => rfl, fun k => ?_, fun k => ?_⟩
  · show retryLoop outcome jitter 7 0 3000 [] = _
    simp [retryLoop, hfail, hquota, hretri, MAX_RETRIES, INITIAL_DELAY_MS,
      backoffDelay, List.range_succ]
  · show 2 * backoffDelay jitter k ≤ backoffDelay jitter k * 2 + jitter k
    omega
  · show backoffDelay jitter k ≤ backoffDelay jitter k * 2 + jitter k
    omega

/-- Witness for claim C4: a persistent `503` error with zero jitter draws
runs all 7 attempts, sleeps 3000, 6000, 12000, 24000, 48000, 96000 ms and
throws the last error. -/
theorem claim_C4_retriable_exhaustion_witness :
    sendMessageWithRetry (fun _ => (Except.error "Error 503" : Except String Unit))
      (fun _ => 0) =
      (Except.error "Error 503", 7, [3000, 6000, 12000, 24000, 48000, 96000]) := by
  have h := (claim_C4_retriable_exhaustion (fun _ => Except.error "Error 503")
    (fun _ => 0) (fun _ => "Error 503") (fun _ => rfl)
    (fun _ => by show isQuotaErrorStr (toLowerStr "Error 503") = false; decide)
    (fun _ => by show isRetriableErrorStr (toLowerStr "Error 503") = true; decide)).1
  have hd : (List.range 6).map (backoffDelay (fun _ => 0)) =
      [3000, 6000, 12000, 24000, 48000, 96000] := by decide
  rw [hd] at h
  exact h

/-- Claim C7 counterexample: on the markup with exactly 2 inline
`data:image/png;base64` images and a 3-entry TOC, the archive does NOT
contain 3 image files under `images/` — the packager emits one image file
per inline image, so there are 2. -/
theorem claim_C7_counterexample :
    ¬ ((generateEpub sampleDoc "Sample").entries.countP
        (fun entry => startsWithStr entry.path "OEBPS/images/") = 3) := by
  decide

/-- Claim C7 (amended): on the markup with exactly 2 inline
`data:image/png;base64` images and a 3-entry TOC, the archive contains
exactly 2 image files under `images/`, the manifest references exactly
those 2, the navigation has 3 `navPoint` entries following TOC order with
`playOrder` 1, 2, 3, and the `mimetype` entry is the first archive entry,
stored with zero compression, with content `application/epub+zip`. -/
theorem claim_C7_two_images_three_navpoints :
    ((generateEpub sampleDoc "Sample").entries.filter
        (fun entry => startsWithStr entry.path "OEBPS/images/")).map ZipEntry.path =
      ["OEBPS/images/image0.png", "OEBPS/images/image1.png"] ∧
    (generateEpub sampleDoc "Sample").imageManifestItems =
      ["<item id=\"img0\" href=\"images/image0.png\" media-type=\"image/png\"/>",
       "<item id=\"img1\" href=\"images/image1.png\" media-type=\"image/png\"/>"] ∧
    (generateEpub sampleDoc "Sample").navPoints.length = 3 ∧
    includesStr ((generateEpub sampleDoc "Sample").navPoints.getD 0 "")
      "playOrder=\"1\"" = true ∧
    includesStr ((generateEpub sampleDoc "Sample").navPoints.getD 0 "")
      "Chapter 1" = true ∧
    includesStr ((generateEpub sampleDoc "Sample").navPoints.getD 1 "")
      "playOrder=\"2\"" = true ∧
    includesStr ((generateEpub sampleDoc "Sample").navPoints.getD 1 "")
      "Chapter 2" = true ∧
    includesStr ((generateEpub sampleDoc "Sample").navPoints.getD 2 "")
      "playOrder=\"3\"" = true ∧
    includesStr ((generateEpub sampleDoc "Sample").navPoints.getD 2 "")
      "Chapter 3" = true ∧
    (generateEpub sampleDoc "Sample").entries.head? =
      some { path := "mimetype", data := EntryData.text "application/epub+zip",
             compression := some "STORE" } := by
  decide

/-- A typed-array write never changes the buffer length. -/
theorem size_tset (a : Array Nat) (i v : Nat) : (tset a i v).size = a.size := by
  simp [tset]

/-- The RGB loop never changes the buffer length. -/
theorem rgbFill_size (data : List Nat) (l k : Nat) (out : Array Nat) :
    (rgbFill data l k out).size = out.size := by
  rw [rgbFill]
  split
  next h =>
    rw [rgbFill_size data (l + 3) (k + 4)]
    simp [size_tset]
  next h => rfl
termination_by data.length - l
decreasing_by omega

/-- The RGBA copy never changes the buffer length. -/
theorem typedArraySet_size (source : List Nat) :
    ∀ (out : Array Nat) (k : Nat), (typedArraySet out k source).size = out.size := by
  induction source with
  | nil => intro out k; rfl
  | cons v rest ih => intro out k; simp [typedArraySet, ih, size_tset]

/-- The grayscale fallback loop never changes the buffer length. -/
theorem grayFill_size (data : List Nat) (l k : Nat) (out : Array Nat) :
    (grayFill data l k out).size = out.size := by
  rw [grayFill]
  split
  next h =>
    rw [grayFill_size data (l + 1) (k + 4)]
    simp [size_tset]
  next h => rfl
termination_by data.length - l
decreasing_by omega

/-- Claim C8: for every extracted pixel buffer — of length `3 * w * h`,
`4 * w * h`, `1 * w * h`, or any other length — the normalization is total
(out-of-range typed-array writes are no-ops, as in JavaScript) and its
result is always the full 4-channel RGBA buffer of `width * height` pixels:
no branch aborts or changes the buffer shape. -/
theorem claim_C8_normalize_always_rgba (width height : Nat) (data : List Nat) :
    (normalizePixels width height data).size = width * height * 4 := by
  unfold normalizePixels
  split
  next =>
    rw [rgbFill_size]
    simp
  next =>
    split
    next =>
      rw [typedArraySet_size]
      simp
    next =>
      rw [grayFill_size]
      simp

/-- Claim C10: the image-rewriting loop rewrites and counts exactly the
well-formed inline `data:` images: the element count is preserved, the
number of image files written and of manifest `<item>` entries both equal
the number of well-formed inline images, the counter advances by exactly
that number, and every `img` element whose `src` is absent or fails the
inline-data-URI guards is passed through completely unchanged. -/
theorem claim_C10_illformed_images_untouched (imgs : List ImgEl) (c0 : Nat) :
    (processImages imgs c0).1.length = imgs.length ∧
    (processImages imgs c0).2.1.length =
      imgs.countP (fun img => (dataUriParts img.src).isSome) ∧
    (processImages imgs c0).2.2.1.length = (processImages imgs c0).2.1.length ∧
    (processImages imgs c0).2.2.2 =
      c0 + imgs.countP (fun img => (dataUriParts img.src).isSome) ∧
    (∀ p, p < imgs.length → dataUriParts ((imgs.getD p ⟨none⟩).src) = none →
      (processImages imgs c0).1.getD p ⟨none⟩ = imgs.getD p ⟨none⟩) := by
  induction imgs generalizing c0 with
  | nil => simp [processImages]
  | cons img rest ih =>
    cases hd : dataUriParts img.src with
    | some pair =>
      have ihc := ih (c0 + 1)
      refine ⟨?_, ?_, ?_, ?_, ?_⟩
      · simp [processImages, hd, ihc.1]
      · simp [processImages, hd, List.countP_cons, ihc.2.1]
      · simp [processImages, hd, ihc.2.2.1, ihc.2.1]
      · simp [processImages, hd, List.countP_cons, ihc.2.2.2.1]
        omega
      · intro p hp hnone
        match p with
        | 0 => simp at hnone; rw [hd] at hnone; exact absurd hnone (by simp)
        | q + 1 =>
          have := ihc.2.2.2.2 q (by simpa using hp) (by simpa using hnone)
          simpa [processImages, hd] using this
    | none =>
      have ihc := ih c0
      refine ⟨?_, ?_, ?_, ?_, ?_⟩
      · simp [processImages, hd, ihc.1]
      · simp [processImages, hd, List.countP_cons, ihc.2.1]
      · simp [processImages, hd, ihc.2.2.1, ihc.2.1]
      · simp [processImages, hd, List.countP_cons, ihc.2.2.2.1]
      · intro p hp hnone
        match p with
        | 0 => simp [processImages, hd]
        | q + 1 =>
          have := ihc.2.2.2.2 q (by simpa using hp) (by simpa using hnone)
          simpa [processImages, hd] using this

/-- Witness for claim C10: among an `img` with no `src`, an `img` with an
`http:` URL and one well-formed inline image, only the last is counted and
the second is passed through unchanged. -/
theorem claim_C10_illformed_images_untouched_witness :
    (processImages [⟨none⟩, ⟨some "http://example.com/a.png"⟩,
        ⟨some "data:image/png;base64,AA"⟩] 0).1.getD 1 ⟨none⟩ =
      (⟨some "http://example.com/a.png"⟩ : ImgEl) ∧
    (processImages [⟨none⟩, ⟨some "http://example.com/a.png"⟩,
        ⟨some "data:image/png;base64,AA"⟩] 0).2.2.2 = 1 := by
  have h := claim_C10_illformed_images_untouched
    [⟨none⟩, ⟨some "http://example.com/a.png"⟩, ⟨some "data:image/png;base64,AA"⟩] 0
  constructor
  · exact (h.2.2.2.2 1 (by decide) (by decide)).trans (by decide)
  · exact h.2.2.2.1.trans (by decide)

end PdfToEpub
